import Mathlib

/-!
Verification of the data-science project scaffolder (src/main.py).

The program is a CLI tool: it validates a base path and a project name,
then either tears down a previously created project directory
(safe_delete) or creates one: an isolated .venv environment, an install
command for a fixed package list, optional git init, a data folder,
requirements.txt, .gitignore, and a notebook or script stub.

Shallow embedding notes:
* A directory is a finite association list from entry names to entries.
  An entry is a plain file (its text content), a notebook file (the
  structured document whose JSON serialization nbformat writes; the
  serialization is injective, so we reason at the structure level), or a
  sub-directory (its own listing).
* The venv and git subprocesses populate the .venv and .git folders with
  contents this program never inspects; the embedding takes those
  contents as arbitrary parameters (venvSub, gitSub).
* Shell command strings are embedded character-for-character, including
  the space runs that the backslash-continued f-string on source lines
  117-119 puts into the POSIX command.
-/

namespace DS

/-- Source line 18: the fixed package list. -/
def PACKAGES : List String :=
  ["numpy", "pandas", "openpyxl", "scikit-learn", "matplotlib", "seaborn", "notebook"]

/-- Source line 24: the fixed ignore-pattern list. -/
def ignore_file_types : List String :=
  ["*.txt", "*.csv", "*.xlsx", "*.xls", "*.ipynb_checkpoints", "*.vscode", ".git"]

/-- Source line 56: the disallowed characters (Python name: bad_syntax). -/
def bad_syntax_chars : List Char := [',', '.', '/', '\\', '\n', '\t', '?']

/-- Outcome of calling validate_name: the Python function either falls off
the end (returns None) or RETURNS the constructed ArgumentTypeError object.
It never executes a raise statement, so no raising outcome exists. -/
inductive NameCheckOutcome where
  | returnedErrorObject (msg : String)
  | returnedNone

/-- Source lines 44-59: validate_name. The failure branch is
`return argparse.ArgumentTypeError(...)`, not a raise. -/
def validate_name (fname : String) : NameCheckOutcome :=
  if fname.toList.any (fun letter => bad_syntax_chars.contains letter) then
    NameCheckOutcome.returnedErrorObject "Invalid folder name supplied."
  else
    NameCheckOutcome.returnedNone

/-- Source lines 174-177: the --name argument is added with action=store and
no type converter, so argparse stores the raw string unchecked. -/
def parse_name_arg (s : String) : String := s

/-- A notebook cell (nbformat v4): markdown or code, with its source text. -/
inductive Cell where
  | markdown (source : String)
  | code (source : String)

/-- A notebook document: its cell list. -/
structure Notebook where
  cells : List Cell

/-- One entry of a directory listing. -/
inductive Entry where
  | file (content : String)
  | notebook (nb : Notebook)
  | dir (sub : List (String × Entry))

/-- A directory listing: entry names paired with entries. -/
abbrev Dir := List (String × Entry)

/-- Whether an entry is a sub-directory (shutil.rmtree succeeds only on
directories; os.remove only on non-directories). -/
def Entry.isDir : Entry → Bool
  | Entry.dir _ => true
  | _ => false

/-- os.path.exists for an entry name inside a listing. -/
def exists_entry (d : Dir) (n : String) : Bool :=
  d.any (fun p => p.1 == n)

/-- The entry stored under a name, if present (first match). -/
def lookup : Dir → String → Option Entry
  | [], _ => none
  | p :: d, n => if p.1 == n then some p.2 else lookup d n

/-- Deleting the entry of a given name. -/
def remove_entry (d : Dir) (n : String) : Dir :=
  d.filter (fun p => !(p.1 == n))

/-- Creating or truncate-overwriting the entry of a given name. -/
def setEntry (d : Dir) (n : String) (e : Entry) : Dir :=
  remove_entry d n ++ [(n, e)]

/-- Source line 62: the sub-folders safe_delete removes. -/
def folders_to_remove : List String := [".venv", "data", ".git"]

/-- Source line 63: the files safe_delete removes. -/
def files_to_remove : List String :=
  ["solution.py", "solution.ipynb", "requirements.txt", ".gitignore", ".DS_Store"]

/-- The full teardown allow-list: the three folders and five files. -/
def allowNames : List String := folders_to_remove ++ files_to_remove

/-- Result of safe_delete on a directory: either the directory was removed,
or an exception propagated with the directory still on disk holding the
given remaining contents. -/
inductive DeleteResult where
  | removed
  | failed (remaining : Dir)

/-- Source lines 64-66: `if os.path.exists(...): shutil.rmtree(...)` for one
folder name. rmtree raises (state unchanged) when the entry is not a
directory. -/
def rmtree_step (d : Dir) (n : String) : Except Dir Dir :=
  match lookup d n with
  | none => Except.ok d
  | some e => if e.isDir then Except.ok (remove_entry d n) else Except.error d

/-- Source lines 67-69: `if os.path.exists(...): os.remove(...)` for one file
name. os.remove raises (state unchanged) when the entry is a directory. -/
def rm_step (d : Dir) (n : String) : Except Dir Dir :=
  match lookup d n with
  | none => Except.ok d
  | some e => if e.isDir then Except.error d else Except.ok (remove_entry d n)

/-- Running one removal step per name, stopping at the first exception. -/
def run_steps (step : Dir → String → Except Dir Dir) : Dir → List String → Except Dir Dir
  | d, [] => Except.ok d
  | d, n :: ns =>
    match step d n with
    | Except.ok d2 => run_steps step d2 ns
    | Except.error d2 => Except.error d2

/-- Source lines 61-71: safe_delete. Removes the allow-listed folders then
files, then `os.rmdir` on the directory itself, which succeeds only if the
directory is now empty. -/
def safe_delete (d : Dir) : DeleteResult :=
  match run_steps rmtree_step d folders_to_remove with
  | Except.error d2 => DeleteResult.failed d2
  | Except.ok d2 =>
    match run_steps rm_step d2 files_to_remove with
    | Except.error d3 => DeleteResult.failed d3
    | Except.ok d3 =>
      if d3.isEmpty then DeleteResult.removed else DeleteResult.failed d3

/-- Source line 134: requirements.txt content. -/
def requirements_text : String := String.intercalate "\n" PACKAGES

/-- Source line 140: .gitignore content. -/
def gitignore_text : String := String.intercalate "\n" ignore_file_types

/-- Source line 146: the source of the notebook code cell. -/
def notebook_code_source : String := "import numpy as np\nimport pandas as pd"

/-- Source line 143: nbf.v4.new_notebook() starts with no cells. -/
def new_notebook : Notebook := ⟨[]⟩

/-- Source lines 143-148: the notebook after extending the fresh notebook
with the markdown cell and the code cell. -/
def solution_notebook : Notebook :=
  ⟨new_notebook.cells ++ [Cell.markdown "# Solution Notebook", Cell.code notebook_code_source]⟩

/-- Source line 154: solution.py content. -/
def solution_py_text : String := "import pandas as pd\nimport numpy as np"

/-- Source lines 105-106: create the .venv environment; its contents come
from the venv subprocess, which this program never inspects. -/
def venv_step (venvSub : Dir) (d : Dir) : Dir :=
  setEntry d ".venv" (Entry.dir venvSub)

/-- Source lines 123-125: `git init` when requested; its contents come from
the git subprocess. -/
def git_step (gitSub : Dir) (git : Bool) (d : Dir) : Dir :=
  if git then setEntry d ".git" (Entry.dir gitSub) else d

/-- Source lines 130-131: create ./data when absent. -/
def data_step (d : Dir) : Dir :=
  if exists_entry d "data" then d else setEntry d "data" (Entry.dir [])

/-- Source lines 133-136: write requirements.txt. -/
def req_step (d : Dir) : Dir :=
  setEntry d "requirements.txt" (Entry.file requirements_text)

/-- Source lines 138-140: write .gitignore. -/
def gitignore_step (d : Dir) : Dir :=
  setEntry d ".gitignore" (Entry.file gitignore_text)

/-- Source lines 142-155: write the stub selected by project_type. argparse
leaves project_type as None when the flag is omitted, so it is an Option. -/
def stub_step (pt : Option String) (d : Dir) : Dir :=
  if pt == some "jupyter-notebook" then
    setEntry d "solution.ipynb" (Entry.notebook solution_notebook)
  else if pt == some "python" then
    setEntry d "solution.py" (Entry.file solution_py_text)
  else d

/-- Source lines 95-155, create path: the contents of the project directory
after main runs on a directory whose prior contents are d0 (a fresh run has
d0 = []; line 96 mkdir yields the empty listing). -/
def main_create (venvSub gitSub : Dir) (pt : Option String) (git : Bool) (d0 : Dir) : Dir :=
  stub_step pt (gitignore_step (req_step (data_step (git_step gitSub git (venv_step venvSub d0)))))

/-- The package names joined by single spaces, as interpolated into both
install commands (source lines 112 and 119). -/
def pkgs_arg : String := String.intercalate " " PACKAGES

/-- Source line 111: os.path.join of venv_path, Scripts, activate on nt. -/
def nt_activate_script (venv_path : String) : String :=
  venv_path ++ "\\Scripts\\activate"

/-- Source line 115: os.path.join of venv_path, bin, activate on posix. -/
def posix_activate_script (venv_path : String) : String :=
  venv_path ++ "/bin/activate"

/-- Source line 112: the Windows shell command. Note the two spaces after
"install" from the source f-string. -/
def nt_install_cmd (venv_path : String) : String :=
  nt_activate_script venv_path ++ " && " ++ "pip install  " ++ pkgs_arg

/-- The 23 spaces of indentation that the backslash-continued f-string on
source lines 118-119 embeds into the command. -/
def contSpaces : String := "                       "

/-- Source lines 117-119: the POSIX shell command, character for character:
the backslash-newline pairs vanish and the continuation indentation stays. -/
def posix_install_cmd (venv_path : String) : String :=
  "source '" ++ posix_activate_script venv_path ++ "' && " ++ contSpaces ++
    "python -m pip install --upgrade pip" ++ " && " ++ contSpaces ++
    "pip install " ++ pkgs_arg

/-- Source lines 110-119: which install command runs on which OS family. -/
def install_cmd (os_name : String) (venv_path : String) : Option String :=
  if os_name == "nt" then some (nt_install_cmd venv_path)
  else if os_name == "posix" then some (posix_install_cmd venv_path)
  else none

/-- A command string contains a pip-upgrade invocation somewhere followed
later by the installation of the fixed package list. -/
def upgradesThenInstalls (cmd : String) : Prop :=
  ∃ a b, cmd = a ++ ("python -m pip install --upgrade pip" ++ (b ++ ("pip install " ++ pkgs_arg)))

/-- A command string ends by installing the fixed package list (the
two-space form of the Windows branch). -/
def installsPackages (cmd : String) : Prop :=
  ∃ a, cmd = a ++ ("pip install  " ++ pkgs_arg)

/-- Splitting a character list at newline characters. -/
def splitLinesAux : List Char → List (List Char)
  | [] => [[]]
  | c :: rest =>
    match splitLinesAux rest with
    | l :: ls => if c = '\n' then [] :: l :: ls else (c :: l) :: ls
    | [] => [[c]]

/-- The lines of a string: its text split at newline characters. -/
def linesOf (s : String) : List String :=
  (splitLinesAux s.toList).map (fun cs => String.mk cs)

/-- Whether the first character list is an initial segment of the second. -/
def isInitialSegment : List Char → List Char → Bool
  | [], _ => true
  | _ :: _, [] => false
  | p :: ps, c :: cs => p == c && isInitialSegment ps cs

/-- Whether pat occurs as a contiguous run inside s. -/
def containsSub : List Char → List Char → Bool
  | s, pat =>
    isInitialSegment pat s ||
      match s with
      | [] => false
      | _ :: cs => containsSub cs pat

/-- Whether pat occurs as a substring of s. -/
def hasSub (s pat : String) : Bool := containsSub s.toList pat.toList

/-- How many of the two stub files a directory holds. -/
def stub_count (d : Dir) : Nat :=
  (if (lookup d "solution.ipynb").isSome then 1 else 0) +
    (if (lookup d "solution.py").isSome then 1 else 0)



theorem lookup_setEntry_self (d : Dir) (n : String) (e : Entry) :
    lookup (setEntry d n e) n = some e := by
  unfold setEntry
  induction d with
  | nil => simp [lookup, remove_entry]
  | cons a d ih =>
    by_cases h : a.1 = n <;>
      simp [remove_entry, List.filter_cons, h, lookup] at * <;>
      exact ih

theorem lookup_setEntry_ne (d : Dir) (n m : String) (e : Entry) (h : m ≠ n) :
    lookup (setEntry d n e) m = lookup d m := by
  unfold setEntry
  induction d with
  | nil => simp [lookup, remove_entry, Ne.symm h]
  | cons a d ih =>
    by_cases h1 : a.1 = n
    · simp [remove_entry, List.filter_cons, h1, lookup, Ne.symm h] at *
      exact ih
    · by_cases h2 : a.1 = m
      · simp [remove_entry, List.filter_cons, h1, lookup, h2, h]
      · simp [remove_entry, List.filter_cons, h1, lookup, h2] at *
        exact ih

theorem mem_remove_entry (d : Dir) (n : String) (p : String × Entry)
    (hp : p ∈ d) (h : p.1 ≠ n) : p ∈ remove_entry d n := by
  unfold remove_entry
  exact List.mem_filter.mpr ⟨hp, by simp [h]⟩

theorem remove_entry_subset (d : Dir) (n : String) (p : String × Entry)
    (hp : p ∈ remove_entry d n) : p ∈ d :=
  (List.mem_filter.mp hp).1

theorem rmtree_step_cases (d : Dir) (n : String) :
    rmtree_step d n = Except.ok d ∨ rmtree_step d n = Except.ok (remove_entry d n) ∨
      rmtree_step d n = Except.error d := by
  unfold rmtree_step
  cases lookup d n with
  | none => exact Or.inl rfl
  | some e => by_cases h : e.isDir <;> simp [h]

theorem rm_step_cases (d : Dir) (n : String) :
    rm_step d n = Except.ok d ∨ rm_step d n = Except.ok (remove_entry d n) ∨
      rm_step d n = Except.error d := by
  unfold rm_step
  cases lookup d n with
  | none => exact Or.inl rfl
  | some e => by_cases h : e.isDir <;> simp [h]

theorem run_steps_frame (step : Dir → String → Except Dir Dir)
    (hstep : ∀ d n, step d n = Except.ok d ∨ step d n = Except.ok (remove_entry d n) ∨
      step d n = Except.error d)
    (ns : List String) :
    ∀ d e : Dir,
      (run_steps step d ns = Except.ok e ∨ run_steps step d ns = Except.error e) →
      (∀ p, p ∈ d → p.1 ∉ ns → p ∈ e) ∧ (∀ p, p ∈ e → p ∈ d) := by
  induction ns with
  | nil =>
    intro d e hr
    rcases hr with hr | hr
    · simp [run_steps] at hr
      subst hr
      exact ⟨fun p hp _ => hp, fun p hp => hp⟩
    · simp [run_steps] at hr
  | cons n ns ih =>
    intro d e hr
    rcases hstep d n with h | h | h
    · simp only [run_steps, h] at hr
      rcases ih d e hr with ⟨h1, h2⟩
      refine ⟨fun p hp hnot => h1 p hp ?_, h2⟩
      intro hmem
      exact hnot (List.mem_cons_of_mem _ hmem)
    · simp only [run_steps, h] at hr
      rcases ih (remove_entry d n) e hr with ⟨h1, h2⟩
      constructor
      · intro p hp hnot
        refine h1 p (mem_remove_entry d n p hp ?_) ?_
        · intro hh
          exact hnot (hh ▸ List.mem_cons_self n ns)
        · intro hmem
          exact hnot (List.mem_cons_of_mem _ hmem)
      · intro p hp
        exact remove_entry_subset d n p (h2 p hp)
    · simp only [run_steps, h] at hr
      rcases hr with hr | hr
      · exact absurd hr (by simp)
      · simp at hr
        subst hr
        exact ⟨fun p hp _ => hp, fun p hp => hp⟩

theorem safe_delete_frame (d e : Dir) (h : safe_delete d = DeleteResult.failed e) :
    (∀ p, p ∈ d → p.1 ∉ allowNames → p ∈ e) ∧ (∀ p, p ∈ e → p ∈ d) := by
  unfold safe_delete at h
  have notfold : ∀ (p : String × Entry), p.1 ∉ allowNames → p.1 ∉ folders_to_remove := by
    intro p hp hmem
    exact hp (by simp [allowNames, List.mem_append, hmem])
  have notfile : ∀ (p : String × Entry), p.1 ∉ allowNames → p.1 ∉ files_to_remove := by
    intro p hp hmem
    exact hp (by simp [allowNames, List.mem_append, hmem])
  split at h
  · rename_i d2 hrun
    have hd : d2 = e := by injection h
    rcases run_steps_frame rmtree_step rmtree_step_cases folders_to_remove d d2 (Or.inr hrun)
      with ⟨h1, h2⟩
    rw [hd] at h1 h2
    exact ⟨fun p hp hn => h1 p hp (notfold p hn), h2⟩
  · rename_i d2 hrun1
    rcases run_steps_frame rmtree_step rmtree_step_cases folders_to_remove d d2 (Or.inl hrun1)
      with ⟨h1, h2⟩
    split at h
    · rename_i d3 hrun2
      have hd : d3 = e := by injection h
      rcases run_steps_frame rm_step rm_step_cases files_to_remove d2 d3 (Or.inr hrun2)
        with ⟨h3, h4⟩
      rw [hd] at h3 h4
      exact ⟨fun p hp hn => h3 p (h1 p hp (notfold p hn)) (notfile p hn),
        fun p hp => h2 p (h4 p hp)⟩
    · rename_i d3 hrun2
      rcases run_steps_frame rm_step rm_step_cases files_to_remove d2 d3 (Or.inl hrun2)
        with ⟨h3, h4⟩
      by_cases hemp : d3.isEmpty
      · simp [hemp] at h
      · simp [hemp] at h
        rw [h] at h3 h4
        exact ⟨fun p hp hn => h3 p (h1 p hp (notfold p hn)) (notfile p hn),
          fun p hp => h2 p (h4 p hp)⟩


theorem lookup_stub_step_ne (pt : Option String) (d : Dir) (m : String)
    (h1 : m ≠ "solution.ipynb") (h2 : m ≠ "solution.py") :
    lookup (stub_step pt d) m = lookup d m := by
  unfold stub_step
  split
  · exact lookup_setEntry_ne _ _ _ _ h1
  · split
    · exact lookup_setEntry_ne _ _ _ _ h2
    · rfl

theorem lookup_gitignore_step_ne (d : Dir) (m : String) (h : m ≠ ".gitignore") :
    lookup (gitignore_step d) m = lookup d m :=
  lookup_setEntry_ne _ _ _ _ h

theorem string_append_assoc (a b c : String) : a ++ b ++ c = a ++ (b ++ c) := by
  apply String.ext
  simp [String.data_append, List.append_assoc]

/-- Claim C1 (code bug): the spec requires names containing a disallowed
character to be rejected with an InvalidInput failure before any directory
is created, and the docstring of validate_name itself says it raises
argparse.ArgumentTypeError. The code instead RETURNS the constructed error
object (a normal return, modelled by NameCheckOutcome, which has only
normal-return outcomes), and the --name argument is parsed with no checker
attached, so a name such as "a.b" is accepted and the create path runs.
This theorem evaluates the code at the failing input "a.b": the checker
detects the bad character yet merely returns the error object, the parser
accepts the raw name, and every call to validate_name returns normally. -/
theorem c1_validate_name_returns_error_object :
    validate_name "a.b" = NameCheckOutcome.returnedErrorObject "Invalid folder name supplied." ∧
    parse_name_arg "a.b" = "a.b" ∧
    validate_name "data" = NameCheckOutcome.returnedNone ∧
    (∀ fname : String,
      validate_name fname = NameCheckOutcome.returnedNone ∨
      validate_name fname = NameCheckOutcome.returnedErrorObject "Invalid folder name supplied.") := by
  refine ⟨rfl, rfl, rfl, ?_⟩
  intro fname
  unfold validate_name
  split
  · exact Or.inr rfl
  · exact Or.inl rfl

/-- Claim C2: if the target directory holds any entry whose name is outside
the fixed allow-list (three folders, five files), safe_delete raises an
error (the failed outcome, from os.rmdir on a non-empty directory or from a
type-mismatched removal) and the target directory itself is not removed;
removal succeeds only when nothing unexpected remains. -/
theorem c2_unexpected_entry_blocks_removal (d : Dir) (p : String × Entry)
    (hp : p ∈ d) (hn : p.1 ∉ allowNames) :
    safe_delete d ≠ DeleteResult.removed ∧ ∃ e, safe_delete d = DeleteResult.failed e := by
  have main : safe_delete d ≠ DeleteResult.removed := by
    intro h
    unfold safe_delete at h
    split at h
    · exact absurd h (by simp)
    · rename_i d2 hrun1
      split at h
      · exact absurd h (by simp)
      · rename_i d3 hrun2
        by_cases hemp : d3.isEmpty
        · have notfold : p.1 ∉ folders_to_remove := fun hm => hn (by simp [allowNames, hm])
          have notfile : p.1 ∉ files_to_remove := fun hm => hn (by simp [allowNames, hm])
          rcases run_steps_frame rmtree_step rmtree_step_cases folders_to_remove d d2
            (Or.inl hrun1) with ⟨h1, _⟩
          rcases run_steps_frame rm_step rm_step_cases files_to_remove d2 d3
            (Or.inl hrun2) with ⟨h3, _⟩
          have hp3 : p ∈ d3 := h3 p (h1 p hp notfold) notfile
          rw [List.isEmpty_iff] at hemp
          rw [hemp] at hp3
          exact absurd hp3 (List.not_mem_nil p)
        · simp [hemp] at h
  refine ⟨main, ?_⟩
  cases h : safe_delete d with
  | removed => exact absurd h main
  | failed e => exact ⟨e, rfl⟩

/-- Witness for C2: a directory holding the unexpected file notes.md is not
removed by safe_delete, and an error propagates. -/
theorem c2_unexpected_entry_blocks_removal_witness :
    safe_delete [("notes.md", Entry.file "x")] ≠ DeleteResult.removed ∧
    ∃ e, safe_delete [("notes.md", Entry.file "x")] = DeleteResult.failed e :=
  c2_unexpected_entry_blocks_removal [("notes.md", Entry.file "x")]
    ("notes.md", Entry.file "x") (List.mem_singleton.mpr rfl) (by decide)

/-- Claim C3: round-trip. Creating a project in a fresh directory (any
venv and git contents, any project_type value, git on or off) and then
immediately running safe_delete on it removes the directory completely
with no error: every entry produced by the create path is on the teardown
allow-list, so the final os.rmdir sees an empty directory and succeeds. -/
theorem c3_create_then_cleanup_removes_all (v g : Dir) (pt : Option String) (git : Bool) :
    safe_delete (main_create v g pt git []) = DeleteResult.removed := by
  cases git <;> unfold main_create stub_step <;> split
  all_goals try split
  all_goals
    simp [venv_step, git_step, data_step, req_step, gitignore_step,
      safe_delete, run_steps, rmtree_step, rm_step, lookup, exists_entry, remove_entry, setEntry,
      Entry.isDir, folders_to_remove, files_to_remove, List.filter]

/-- Claim C4: after any create run (any prior directory contents, any
project_type, git on or off), requirements.txt holds exactly the fixed
package list joined by newlines: the content splits back into the package
list one per line, the list is the fixed seven packages in their fixed
order (the writer is a pure function of this constant, hence deterministic
across runs), and no package string carries a version pin. -/
theorem c4_requirements_txt_fixed_package_list (v g : Dir) (pt : Option String) (git : Bool)
    (d0 : Dir) :
    lookup (main_create v g pt git d0) "requirements.txt" = some (Entry.file requirements_text) ∧
    requirements_text = "numpy\npandas\nopenpyxl\nscikit-learn\nmatplotlib\nseaborn\nnotebook" ∧
    linesOf requirements_text = PACKAGES ∧
    (PACKAGES.all (fun p => p.toList.all (fun c => !(['=', '<', '>', '~'].contains c)))) = true := by
  refine ⟨?_, by decide, by decide, by decide⟩
  unfold main_create
  rw [lookup_stub_step_ne _ _ _ (by decide) (by decide),
    lookup_gitignore_step_ne _ _ (by decide)]
  exact lookup_setEntry_self _ _ _

/-- Claim C5: after any create run the .gitignore file holds exactly the
fixed ignore-pattern list joined by newlines, and its content does not
depend on the project_type argument (two runs differing only in
project_type write the same .gitignore). -/
theorem c5_gitignore_fixed_patterns (v g : Dir) (pt pt2 : Option String) (git : Bool)
    (d0 : Dir) :
    lookup (main_create v g pt git d0) ".gitignore" = some (Entry.file gitignore_text) ∧
    gitignore_text = "*.txt\n*.csv\n*.xlsx\n*.xls\n*.ipynb_checkpoints\n*.vscode\n.git" ∧
    lookup (main_create v g pt git d0) ".gitignore" =
      lookup (main_create v g pt2 git d0) ".gitignore" := by
  have key : ∀ pt3 : Option String,
      lookup (main_create v g pt3 git d0) ".gitignore" = some (Entry.file gitignore_text) := by
    intro pt3
    unfold main_create
    rw [lookup_stub_step_ne _ _ _ (by decide) (by decide)]
    exact lookup_setEntry_self _ _ _
  exact ⟨key pt, by decide, (key pt).trans (key pt2).symm⟩

/-- Claim C6: when project_type is jupyter-notebook, the create path stores
under solution.ipynb a notebook of exactly two cells in order: a markdown
cell whose source is the literal heading, then a code cell importing numpy
and pandas (the two core numeric and tabular libraries). -/
theorem c6_notebook_stub_cells (v g : Dir) (git : Bool) (d0 : Dir) :
    lookup (main_create v g (some "jupyter-notebook") git d0) "solution.ipynb" =
      some (Entry.notebook solution_notebook) ∧
    solution_notebook.cells =
      [Cell.markdown "# Solution Notebook", Cell.code "import numpy as np\nimport pandas as pd"] ∧
    solution_notebook.cells.length = 2 := by
  refine ⟨?_, rfl, rfl⟩
  show lookup (setEntry (gitignore_step (req_step (data_step (git_step g git (venv_step v d0)))))
    "solution.ipynb" (Entry.notebook solution_notebook)) "solution.ipynb" = _
  exact lookup_setEntry_self _ _ _

/-- Claim C7: when project_type is python, the create path writes
solution.py whose plain text consists of the same two import statements as
the notebook code cell. The exact text is the pandas import then the
numpy import statement (the reverse order of the notebook cell), so the
line lists are permutations of each other. -/
theorem c7_script_stub_imports (v g : Dir) (git : Bool) (d0 : Dir) :
    lookup (main_create v g (some "python") git d0) "solution.py" =
      some (Entry.file solution_py_text) ∧
    solution_py_text = "import pandas as pd\nimport numpy as np" ∧
    (linesOf solution_py_text).Perm (linesOf notebook_code_source) := by
  refine ⟨?_, rfl, ?_⟩
  · show lookup (setEntry (gitignore_step (req_step (data_step (git_step g git (venv_step v d0)))))
      "solution.py" (Entry.file solution_py_text)) "solution.py" = _
    exact lookup_setEntry_self _ _ _
  · have h1 : linesOf solution_py_text = ["import pandas as pd", "import numpy as np"] := by
      decide
    have h2 : linesOf notebook_code_source = ["import numpy as np", "import pandas as pd"] := by
      decide
    rw [h1, h2]
    exact List.Perm.swap _ _ _

/-- Counterexample to claim C8 as stated: on Windows (os.name nt) the
install invocation contains no pip-upgrade step at all, only the package
installation, while the POSIX invocation does contain the upgrade. So it is
false that on both OS families the invocation first upgrades pip. -/
theorem c8_windows_branch_never_upgrades_pip :
    install_cmd "nt" "C:\\Users\\u\\project\\.venv" =
      some (nt_install_cmd "C:\\Users\\u\\project\\.venv") ∧
    hasSub (nt_install_cmd "C:\\Users\\u\\project\\.venv") "--upgrade" = false ∧
    hasSub (nt_install_cmd "C:\\Users\\u\\project\\.venv") "pip install" = true ∧
    hasSub (posix_install_cmd "/home/u/project/.venv") "--upgrade" = true := by
  exact ⟨rfl, by decide, by decide, by decide⟩

/-- Claim C8 as amended: the POSIX branch first upgrades pip and then
installs the fixed package list; the Windows branch activates and installs
the fixed package list but never upgrades pip. The branches select the
activation script by OS path convention. -/
theorem c8_amended_install_invocations (vp : String) :
    install_cmd "posix" vp = some (posix_install_cmd vp) ∧
    install_cmd "nt" vp = some (nt_install_cmd vp) ∧
    upgradesThenInstalls (posix_install_cmd vp) ∧
    installsPackages (nt_install_cmd vp) ∧
    hasSub (nt_install_cmd "/home/u/project/.venv") "--upgrade" = false := by
  refine ⟨rfl, rfl, ?_, ?_, by decide⟩
  · refine ⟨"source '" ++ posix_activate_script vp ++ "' && " ++ contSpaces,
      " && " ++ contSpaces, ?_⟩
    unfold posix_install_cmd
    simp only [string_append_assoc]
  · refine ⟨nt_activate_script vp ++ " && ", ?_⟩
    unfold nt_install_cmd
    simp only [string_append_assoc]

/-- Counterexample to claim C9 as stated: project_type is an optional
argument; when it is omitted (argparse leaves it None) a successful create
run writes NEITHER solution.ipynb nor solution.py, so the directory does
not contain exactly one stub file. -/
theorem c9_no_stub_when_project_type_omitted :
    lookup (main_create [] [] none false []) "solution.ipynb" = none ∧
    lookup (main_create [] [] none false []) "solution.py" = none := ⟨rfl, rfl⟩

/-- Claim C9 as amended: after a successful create run on a fresh
directory, the project directory contains exactly one of the two stub
files when project_type was supplied (one of the two argparse choices),
and none when project_type was omitted. -/
theorem c9_amended_stub_presence (v g : Dir) (git : Bool) (pt : Option String)
    (h : pt = none ∨ pt = some "jupyter-notebook" ∨ pt = some "python") :
    stub_count (main_create v g pt git []) = if pt = none then 0 else 1 := by
  rcases h with h | h | h <;> subst h <;> cases git <;> rfl

/-- Witness for the amended C9 at project_type python. -/
theorem c9_amended_stub_presence_witness :
    stub_count (main_create [] [] (some "python") false []) =
      if (some "python" : Option String) = none then 0 else 1 :=
  c9_amended_stub_presence [] [] false (some "python") (Or.inr (Or.inr rfl))

/-- Claim C10 (frame property of teardown): whenever safe_delete fails and
leaves the directory with contents e, every entry of the original listing
whose name is outside the fixed allow-list is still present unchanged in e,
and e contains nothing that was not already in the original listing, i.e.
safe_delete deletes only allow-listed entries and never creates or rewrites
anything. -/
theorem c10_teardown_frame_property (d e : Dir) (h : safe_delete d = DeleteResult.failed e) :
    (∀ p, p ∈ d → p.1 ∉ allowNames → p ∈ e) ∧ (∀ p, p ∈ e → p ∈ d) :=
  safe_delete_frame d e h

/-- Witness for C10: safe_delete on a directory holding only notes.md fails
and leaves exactly that listing. -/
theorem c10_teardown_frame_property_witness :
    (∀ p, p ∈ ([("notes.md", Entry.file "x")] : Dir) → p.1 ∉ allowNames →
      p ∈ ([("notes.md", Entry.file "x")] : Dir)) ∧
    (∀ p, p ∈ ([("notes.md", Entry.file "x")] : Dir) →
      p ∈ ([("notes.md", Entry.file "x")] : Dir)) :=
  c10_teardown_frame_property [("notes.md", Entry.file "x")] [("notes.md", Entry.file "x")] rfl

end DS
